import Mathlib

/-!
Verification of the fast-style-transfer network definitions
(`src/networks.py`): the feed-forward image transformation network
(`ConvLayer`, `ResidualBlock`, `TransformerNet`) and the feature
extraction pipeline (`vgg_layers`, `gram_matrix`, `StyleContentModel`).

Tensors are modelled as a shape record together with a total data
function on natural-number indices; real-valued machine floats are
modelled by `ℝ`.  Convolution output sizes follow the framework's
arithmetic for valid convolutions (`ceil((n - k + 1) / s)`, written
on `ℕ` as `(n + s - k) / s`), and `Conv2DTranspose` with "same"
padding multiplies the spatial size by the stride.
-/

namespace FastStyleTransfer

/-- Shape of a rank-4 tensor in channels-last layout (batch, height, width, channels). -/
structure Shape where
  B : ℕ
  H : ℕ
  W : ℕ
  C : ℕ
  deriving DecidableEq

/-- A rank-4 tensor: a shape together with a total data function; entries
outside the shape are junk values that no operation depends on. -/
structure Tensor where
  shape : Shape
  data : ℕ → ℕ → ℕ → ℕ → ℝ

/-- A rank-3 tensor (used for Gram matrices of shape (batch, channels, channels)). -/
structure Tensor3 where
  d0 : ℕ
  d1 : ℕ
  d2 : ℕ
  data : ℕ → ℕ → ℕ → ℝ

/-- Pointwise application of a scalar function, as in elementwise tensor ops. -/
noncomputable def tensorMap (f : ℝ → ℝ) (t : Tensor) : Tensor :=
  { shape := t.shape
    data := fun b i j c => f (t.data b i j c) }

/-- Elementwise addition; the framework requires both shapes to agree, and the
result carries the first argument's shape. -/
noncomputable def tensorAdd (x y : Tensor) : Tensor :=
  { shape := x.shape
    data := fun b i j c => x.data b i j c + y.data b i j c }

/-- Rectified linear unit `tf.nn.relu` / `layers.ReLU`: clips negative values to zero. -/
noncomputable def relu (t : Tensor) : Tensor :=
  tensorMap (fun v => max v 0) t

/-- Output length of a valid (unpadded) convolution of kernel `k` and stride `s`
over an axis of length `n`: `ceil((n - k + 1) / s)`, here in truncated natural
arithmetic assuming `n + s ≥ k` (always satisfied after the layer's padding). -/
def convOut (n k s : ℕ) : ℕ :=
  (n + s - k) / s

/-- Learned parameters of a `layers.Conv2D`: kernel weights indexed by
(kernel row, kernel column, input channel, output channel) and a bias per
output channel. -/
structure ConvParams where
  w : ℕ → ℕ → ℕ → ℕ → ℝ
  bias : ℕ → ℝ

/-- Learned and tracked parameters of a `layers.BatchNormalization`. -/
structure BNParams where
  gamma : ℕ → ℝ
  beta : ℕ → ℝ
  movingMean : ℕ → ℝ
  movingVar : ℕ → ℝ
  eps : ℝ

/-- The `layers.ZeroPadding2D(p)` operation: pads the two spatial axes by `p`
zeros on each side. -/
noncomputable def zeroPad2D (pad : ℕ) (t : Tensor) : Tensor :=
  { shape := ⟨t.shape.B, t.shape.H + 2 * pad, t.shape.W + 2 * pad, t.shape.C⟩
    data := fun b i j c =>
      if pad ≤ i ∧ i < t.shape.H + pad ∧ pad ≤ j ∧ j < t.shape.W + pad then
        t.data b (i - pad) (j - pad) c
      else 0 }

/-- The `layers.Conv2D(cout, (k, k), strides=s)` operation with valid padding:
a strided window inner product plus the per-channel bias. -/
noncomputable def conv2d (cout k s : ℕ) (p : ConvParams) (t : Tensor) : Tensor :=
  { shape := ⟨t.shape.B, convOut t.shape.H k s, convOut t.shape.W k s, cout⟩
    data := fun b i j d =>
      p.bias d +
        ∑ ki ∈ Finset.range k, ∑ kj ∈ Finset.range k, ∑ c ∈ Finset.range t.shape.C,
          t.data b (s * i + ki) (s * j + kj) c * p.w ki kj c d }

/-- The `layers.Conv2DTranspose(cout, (k, k), strides=s, padding="same",
use_bias=False)` operation: the transpose of a same-padded strided
convolution, so the output spatial size is `n * s` and position `o` gathers
every input position `i` and kernel offset `ki` with `s * i + ki = o + (k - s) / 2`. -/
noncomputable def conv2dTranspose (cout k s : ℕ) (w : ℕ → ℕ → ℕ → ℕ → ℝ) (t : Tensor) : Tensor :=
  { shape := ⟨t.shape.B, t.shape.H * s, t.shape.W * s, cout⟩
    data := fun b oi oj d =>
      ∑ i ∈ Finset.range t.shape.H, ∑ j ∈ Finset.range t.shape.W,
        ∑ ki ∈ Finset.range k, ∑ kj ∈ Finset.range k, ∑ c ∈ Finset.range t.shape.C,
          if s * i + ki = oi + (k - s) / 2 ∧ s * j + kj = oj + (k - s) / 2 then
            w ki kj c d * t.data b i j c
          else 0 }

/-- The `layers.BatchNormalization` forward pass.  In training mode it uses the
batch statistics of the current input; in inference mode (including the
unresolved `training=None` default, which the framework resolves to the
inference learning phase) it uses the tracked moving statistics. -/
noncomputable def batchNorm (p : BNParams) (training : Option Bool) (t : Tensor) : Tensor :=
  { shape := t.shape
    data := fun b i j c =>
      if training = some true then
        let n : ℝ := ((t.shape.B * t.shape.H * t.shape.W : ℕ) : ℝ)
        let mean : ℝ :=
          (∑ b' ∈ Finset.range t.shape.B, ∑ i' ∈ Finset.range t.shape.H,
            ∑ j' ∈ Finset.range t.shape.W, t.data b' i' j' c) / n
        let bvar : ℝ :=
          (∑ b' ∈ Finset.range t.shape.B, ∑ i' ∈ Finset.range t.shape.H,
            ∑ j' ∈ Finset.range t.shape.W, (t.data b' i' j' c - mean) ^ 2) / n
        p.gamma c * (t.data b i j c - mean) / Real.sqrt (bvar + p.eps) + p.beta c
      else
        p.gamma c * (t.data b i j c - p.movingMean c) / Real.sqrt (p.movingVar c + p.eps) +
          p.beta c }

/-- The `ConvLayer` unit of `src/networks.py`: zero-pad each spatial side by
`kernel_size // 2` (the source notes this stands in for reflection padding),
then one `Conv2D` with the given stride and no further padding; no
activation and no normalization inside the unit. -/
noncomputable def ConvLayer.call (channels k s : ℕ) (p : ConvParams) (t : Tensor) : Tensor :=
  conv2d channels k s p (zeroPad2D (k / 2) t)

/-- Parameters of a `ResidualBlock`: two `ConvLayer`s and two batch normalizations. -/
structure ResidualBlockParams where
  conv1 : ConvParams
  bn1 : BNParams
  conv2 : ConvParams
  bn2 : BNParams

/-- The `ResidualBlock.call` forward pass of `src/networks.py`:
normalize, rectify, convolve, normalize, rectify, convolve, then add the
unmodified input (`residual`).  Both internal `ConvLayer`s are 3×3 and use the
block's single stride value. -/
noncomputable def ResidualBlock.call (channels strides : ℕ) (p : ResidualBlockParams)
    (training : Option Bool) (inputs : Tensor) : Tensor :=
  let residual := inputs
  let x := batchNorm p.bn1 training inputs
  let x := relu x
  let x := ConvLayer.call channels 3 strides p.conv1 x
  let x := batchNorm p.bn2 training x
  let x := relu x
  let x := ConvLayer.call channels 3 strides p.conv2 x
  tensorAdd x residual

/-- Parameters of the full `TransformerNet` as configured in its constructor. -/
structure TransformerNetParams where
  conv1 : ConvParams
  in1 : BNParams
  conv2 : ConvParams
  in2 : BNParams
  conv3 : ConvParams
  in3 : BNParams
  res1 : ResidualBlockParams
  res2 : ResidualBlockParams
  res3 : ResidualBlockParams
  res4 : ResidualBlockParams
  res5 : ResidualBlockParams
  deconv1 : ℕ → ℕ → ℕ → ℕ → ℝ
  in4 : BNParams
  deconv2 : ℕ → ℕ → ℕ → ℕ → ℝ
  in5 : BNParams
  deconv3 : ConvParams

/-- The `TransformerNet.call` forward pass of `src/networks.py`.  The residual
blocks are invoked without an explicit `training` argument; the framework
propagates the caller's `training` value to nested layers through the call
context, which is modelled here by passing `training` to the blocks. -/
noncomputable def TransformerNet.call (p : TransformerNetParams) (training : Option Bool)
    (inputs : Tensor) : Tensor :=
  let x := tensorMap (fun v => v / 255) inputs
  let x := relu (batchNorm p.in1 training (ConvLayer.call 32 9 1 p.conv1 x))
  let x := relu (batchNorm p.in2 training (ConvLayer.call 64 3 2 p.conv2 x))
  let x := relu (batchNorm p.in3 training (ConvLayer.call 128 3 2 p.conv3 x))
  let x := ResidualBlock.call 128 1 p.res1 training x
  let x := ResidualBlock.call 128 1 p.res2 training x
  let x := ResidualBlock.call 128 1 p.res3 training x
  let x := ResidualBlock.call 128 1 p.res4 training x
  let x := ResidualBlock.call 128 1 p.res5 training x
  let x := relu (batchNorm p.in4 training (conv2dTranspose 64 3 2 p.deconv1 x))
  let x := relu (batchNorm p.in5 training (conv2dTranspose 32 3 2 p.deconv2 x))
  let x := ConvLayer.call 3 9 1 p.deconv3 x
  tensorMap (fun v => Real.tanh v * 127.5 + 127.5) x

/-- Instrumented batch normalization: the layer's result paired with the
`training` argument it received, used to trace training-mode threading. -/
noncomputable def batchNormTrace (p : BNParams) (training : Option Bool) (t : Tensor) :
    Tensor × List (Option Bool) :=
  (batchNorm p training t, [training])

/-- Instrumented `ResidualBlock.call`: the same forward pass, also returning the
`training` arguments received by its two batch normalization layers, in order. -/
noncomputable def ResidualBlock.callTrace (channels strides : ℕ) (p : ResidualBlockParams)
    (training : Option Bool) (inputs : Tensor) : Tensor × List (Option Bool) :=
  let residual := inputs
  let s1 := batchNormTrace p.bn1 training inputs
  let x := relu s1.1
  let x := ConvLayer.call channels 3 strides p.conv1 x
  let s2 := batchNormTrace p.bn2 training x
  let x := relu s2.1
  let x := ConvLayer.call channels 3 strides p.conv2 x
  (tensorAdd x residual, s1.2 ++ s2.2)

/-- Instrumented `TransformerNet.call`: the same forward pass, also returning
the `training` arguments received by all fifteen normalization layers invoked
during the pass (`in1`, `in2`, `in3`, the two layers of each of `res1`–`res5`,
`in4`, `in5`), in invocation order. -/
noncomputable def TransformerNet.callTrace (p : TransformerNetParams) (training : Option Bool)
    (inputs : Tensor) : Tensor × List (Option Bool) :=
  let x := tensorMap (fun v => v / 255) inputs
  let s1 := batchNormTrace p.in1 training (ConvLayer.call 32 9 1 p.conv1 x)
  let x := relu s1.1
  let s2 := batchNormTrace p.in2 training (ConvLayer.call 64 3 2 p.conv2 x)
  let x := relu s2.1
  let s3 := batchNormTrace p.in3 training (ConvLayer.call 128 3 2 p.conv3 x)
  let x := relu s3.1
  let r1 := ResidualBlock.callTrace 128 1 p.res1 training x
  let r2 := ResidualBlock.callTrace 128 1 p.res2 training r1.1
  let r3 := ResidualBlock.callTrace 128 1 p.res3 training r2.1
  let r4 := ResidualBlock.callTrace 128 1 p.res4 training r3.1
  let r5 := ResidualBlock.callTrace 128 1 p.res5 training r4.1
  let s4 := batchNormTrace p.in4 training (conv2dTranspose 64 3 2 p.deconv1 r5.1)
  let x := relu s4.1
  let s5 := batchNormTrace p.in5 training (conv2dTranspose 32 3 2 p.deconv2 x)
  let x := relu s5.1
  let x := ConvLayer.call 3 9 1 p.deconv3 x
  (tensorMap (fun v => Real.tanh v * 127.5 + 127.5) x,
    s1.2 ++ s2.2 ++ s3.2 ++ r1.2 ++ r2.2 ++ r3.2 ++ r4.2 ++ r5.2 ++ s4.2 ++ s5.2)

/-- Stage pipeline written from the spec's wording: divide by 255; three
convolution+normalize+rectify stages with channels 32, 64, 128, strides 1, 2, 2
and kernels 9×9, 3×3, 3×3; five residual blocks at 128 channels with stride 1;
two transposed-convolution stages (stride 2, same padding, no bias) with
channels 64 then 32, each followed by normalization and rectification; a final
9×9 stride-1 `ConvLayer` to 3 channels; then `tanh(x) * 127.5 + 127.5`. -/
noncomputable def specForward (p : TransformerNetParams) (training : Option Bool)
    (inputs : Tensor) : Tensor :=
  tensorMap (fun v => Real.tanh v * 127.5 + 127.5)
    (ConvLayer.call 3 9 1 p.deconv3
      (relu (batchNorm p.in5 training (conv2dTranspose 32 3 2 p.deconv2
        (relu (batchNorm p.in4 training (conv2dTranspose 64 3 2 p.deconv1
          (ResidualBlock.call 128 1 p.res5 training
            (ResidualBlock.call 128 1 p.res4 training
              (ResidualBlock.call 128 1 p.res3 training
                (ResidualBlock.call 128 1 p.res2 training
                  (ResidualBlock.call 128 1 p.res1 training
                    (relu (batchNorm p.in3 training (ConvLayer.call 128 3 2 p.conv3
                      (relu (batchNorm p.in2 training (ConvLayer.call 64 3 2 p.conv2
                        (relu (batchNorm p.in1 training (ConvLayer.call 32 9 1 p.conv1
                          (tensorMap (fun v => v / 255) inputs))))))))))))))))))))))

/-- Convolutional path of a residual block, written from the spec's wording:
normalize, rectify, convolve, normalize, rectify, convolve, without the skip
connection. -/
noncomputable def convPath (channels strides : ℕ) (p : ResidualBlockParams)
    (training : Option Bool) (x : Tensor) : Tensor :=
  ConvLayer.call channels 3 strides p.conv2
    (relu (batchNorm p.bn2 training
      (ConvLayer.call channels 3 strides p.conv1
        (relu (batchNorm p.bn1 training x)))))

/-- The einsum `"bijc,bijd->bcd"` of a tensor with itself, as in `gram_matrix`. -/
noncomputable def einsumBijcBijd (t : Tensor) (b c d : ℕ) : ℝ :=
  ∑ i ∈ Finset.range t.shape.H, ∑ j ∈ Finset.range t.shape.W,
    t.data b i j c * t.data b i j d

/-- Number of spatial locations `shape[1] * shape[2]` cast to a float, the
divisor used by `gram_matrix`. -/
noncomputable def numLocations (t : Tensor) : ℝ :=
  ((t.shape.H * t.shape.W : ℕ) : ℝ)

/-- The `gram_matrix` function of `src/networks.py`: the self-einsum
`"bijc,bijd->bcd"` divided elementwise by the number of spatial locations. -/
noncomputable def gram_matrix (t : Tensor) : Tensor3 :=
  { d0 := t.shape.B
    d1 := t.shape.C
    d2 := t.shape.C
    data := fun b c d => einsumBijcBijd t b c d / numLocations t }

/-- A pretrained backbone, modelled as an association list from layer name to
the function producing that layer's intermediate activation.  The name type is
abstract (strings in the source). -/
abbrev Backbone (α : Type) : Type :=
  List (α × (Tensor → Tensor))

/-- The `vgg.get_layer(name)` lookup: the first layer with the given name, or
failure when no layer has that name. -/
def getLayer {α : Type} [DecidableEq α] (vgg : Backbone α) (name : α) :
    Option (Tensor → Tensor) :=
  match vgg with
  | [] => none
  | (n, f) :: rest => if name = n then some f else getLayer rest name

/-- A failure-propagating list traversal: models a Python list comprehension
whose body may raise. -/
def mapOption {α β : Type} (f : α → Option β) : List α → Option (List β)
  | [] => some []
  | a :: as =>
    match f a, mapOption f as with
    | some b, some bs => some (b :: bs)
    | _, _ => none

/-- The `vgg_layers` function of `src/networks.py`: looks up every requested
layer at construction time and, when all names resolve, returns the model
sending an input to the list of the requested intermediate activations in
request order.  A missing name makes construction itself fail. -/
def vgg_layers {α : Type} [DecidableEq α] (vgg : Backbone α) (layer_names : List α) :
    Option (Tensor → List Tensor) :=
  (mapOption (getLayer vgg) layer_names).map fun fs => fun x => fs.map fun f => f x

/-- The constructed `StyleContentModel`: configured layer names, the backbone
model built by `vgg_layers`, and the number of style layers. -/
structure StyleContentModel (α : Type) where
  style_layers : List α
  content_layers : List α
  vggModel : Tensor → List Tensor
  num_style_layers : ℕ

/-- The `StyleContentModel` constructor: builds the backbone model over the
concatenation `style_layers ++ content_layers`; fails exactly when
`vgg_layers` fails. -/
def StyleContentModel.init {α : Type} [DecidableEq α] (vgg : Backbone α)
    (style_layers content_layers : List α) : Option (StyleContentModel α) :=
  (vgg_layers vgg (style_layers ++ content_layers)).map fun m =>
    { style_layers := style_layers
      content_layers := content_layers
      vggModel := m
      num_style_layers := style_layers.length }

/-- Result of `StyleContentModel.call`: the two name-keyed dictionaries,
modelled as association lists in insertion order. -/
structure SCOutput (α : Type) where
  style : List (α × Tensor3)
  content : List (α × Tensor)

/-- The `StyleContentModel.call` forward pass of `src/networks.py`: rescale the
[0,1] input by 255, apply the backbone's preprocessing (an external function,
passed abstractly), run the backbone model once, split its output list
positionally at `num_style_layers`, apply `gram_matrix` to each style
activation, and zip the configured names with the results. -/
noncomputable def StyleContentModel.call {α : Type} (preprocess : Tensor → Tensor)
    (m : StyleContentModel α) (inputs : Tensor) : SCOutput α :=
  let inputs := tensorMap (fun v => v * 255) inputs
  let preprocessed := preprocess inputs
  let outputs := m.vggModel preprocessed
  let style_outputs := outputs.take m.num_style_layers
  let content_outputs := outputs.drop m.num_style_layers
  let styleGrams := style_outputs.map gram_matrix
  let content_dict := m.content_layers.zip content_outputs
  let style_dict := m.style_layers.zip styleGrams
  { style := style_dict, content := content_dict }

/-- All-zero convolution parameters, for concrete instantiations. -/
noncomputable def zeroConvParams : ConvParams :=
  { w := fun _ _ _ _ => 0, bias := fun _ => 0 }

/-- All-zero batch-normalization parameters, for concrete instantiations. -/
noncomputable def zeroBNParams : BNParams :=
  { gamma := fun _ => 0, beta := fun _ => 0, movingMean := fun _ => 0
    movingVar := fun _ => 0, eps := 0 }

/-- All-zero residual-block parameters, for concrete instantiations. -/
noncomputable def zeroResParams : ResidualBlockParams :=
  { conv1 := zeroConvParams, bn1 := zeroBNParams
    conv2 := zeroConvParams, bn2 := zeroBNParams }

/-- All-zero transformer parameters, for concrete instantiations. -/
noncomputable def zeroTNParams : TransformerNetParams :=
  { conv1 := zeroConvParams, in1 := zeroBNParams
    conv2 := zeroConvParams, in2 := zeroBNParams
    conv3 := zeroConvParams, in3 := zeroBNParams
    res1 := zeroResParams, res2 := zeroResParams, res3 := zeroResParams
    res4 := zeroResParams, res5 := zeroResParams
    deconv1 := fun _ _ _ _ => 0, in4 := zeroBNParams
    deconv2 := fun _ _ _ _ => 0, in5 := zeroBNParams
    deconv3 := zeroConvParams }

/-- A concrete 1×4×4×3 all-gray (value 128) image tensor. -/
noncomputable def grayTensor : Tensor :=
  { shape := ⟨1, 4, 4, 3⟩, data := fun _ _ _ _ => 128 }

/-- A concrete 1×5×7×2 tensor of ones. -/
noncomputable def onesTensor : Tensor :=
  { shape := ⟨1, 5, 7, 2⟩, data := fun _ _ _ _ => 1 }

/-- A two-layer backbone over natural-number names, for concrete instantiations. -/
def exampleBackbone : Backbone ℕ :=
  [(0, fun t => t), (1, fun t => t)]

/-- The model constructed from `exampleBackbone` with style layer 0 and
content layer 1. -/
def scmExample : StyleContentModel ℕ :=
  { style_layers := [0]
    content_layers := [1]
    vggModel := fun x => [x, x]
    num_style_layers := 1 }

theorem tensorMap_shape (f : ℝ → ℝ) (t : Tensor) : (tensorMap f t).shape = t.shape := rfl

theorem tensorMap_data (f : ℝ → ℝ) (t : Tensor) (b i j c : ℕ) :
    (tensorMap f t).data b i j c = f (t.data b i j c) := rfl

theorem relu_shape (t : Tensor) : (relu t).shape = t.shape := rfl

theorem batchNorm_shape (p : BNParams) (training : Option Bool) (t : Tensor) :
    (batchNorm p training t).shape = t.shape := rfl

theorem tensorAdd_shape (x y : Tensor) : (tensorAdd x y).shape = x.shape := rfl

theorem zeroPad2D_shape (pad : ℕ) (t : Tensor) :
    (zeroPad2D pad t).shape =
      ⟨t.shape.B, t.shape.H + 2 * pad, t.shape.W + 2 * pad, t.shape.C⟩ := rfl

theorem conv2d_shape (cout k s : ℕ) (p : ConvParams) (t : Tensor) :
    (conv2d cout k s p t).shape =
      ⟨t.shape.B, convOut t.shape.H k s, convOut t.shape.W k s, cout⟩ := rfl

theorem convLayer_shape (channels k s : ℕ) (p : ConvParams) (t : Tensor) :
    (ConvLayer.call channels k s p t).shape =
      ⟨t.shape.B, convOut (t.shape.H + 2 * (k / 2)) k s,
        convOut (t.shape.W + 2 * (k / 2)) k s, channels⟩ := rfl

theorem conv2dTranspose_shape (cout k s : ℕ) (w : ℕ → ℕ → ℕ → ℕ → ℝ) (t : Tensor) :
    (conv2dTranspose cout k s w t).shape =
      ⟨t.shape.B, t.shape.H * s, t.shape.W * s, cout⟩ := rfl

theorem residualBlock_shape (channels strides : ℕ) (p : ResidualBlockParams)
    (training : Option Bool) (x : Tensor) :
    (ResidualBlock.call channels strides p training x).shape =
      ⟨x.shape.B, convOut (convOut (x.shape.H + 2) 3 strides + 2) 3 strides,
        convOut (convOut (x.shape.W + 2) 3 strides + 2) 3 strides, channels⟩ := rfl

/-- The hyperbolic tangent of a real number lies in the interval [-1, 1]. -/
theorem tanh_bounds (x : ℝ) : -1 ≤ Real.tanh x ∧ Real.tanh x ≤ 1 := by
  have key : ∀ y : ℝ, Real.tanh y ≤ 1 := by
    intro y
    rw [Real.tanh_eq_sinh_div_cosh]
    exact (div_le_one (Real.cosh_pos y)).2 (Real.sinh_lt_cosh y).le
  refine ⟨?_, key x⟩
  have h := key (-x)
  rw [Real.tanh_neg] at h
  linarith

/-- The output activation `tanh(v) * 127.5 + 127.5` always lies in [0, 255]. -/
theorem tanh_scale_range (v : ℝ) :
    0 ≤ Real.tanh v * 127.5 + 127.5 ∧ Real.tanh v * 127.5 + 127.5 ≤ 255 := by
  obtain ⟨h1, h2⟩ := tanh_bounds v
  constructor <;> nlinarith

/-- C1: for every input tensor of shape (B,H,W,3) with H and W divisible by 4
and values in [0,255], `TransformerNet.forward` returns a tensor whose shape
equals the input shape exactly and all of whose values lie in [0, 255]. -/
theorem transformer_call_shape_and_range (p : TransformerNetParams) (training : Option Bool)
    (t : Tensor) (hH : 4 ∣ t.shape.H) (hW : 4 ∣ t.shape.W) (hC : t.shape.C = 3)
    (hRange : ∀ b i j c, 0 ≤ t.data b i j c ∧ t.data b i j c ≤ 255) :
    (TransformerNet.call p training t).shape = t.shape ∧
      ∀ b i j c, 0 ≤ (TransformerNet.call p training t).data b i j c ∧
        (TransformerNet.call p training t).data b i j c ≤ 255 := by
  constructor
  · obtain ⟨m, hm⟩ := hH
    obtain ⟨n, hn⟩ := hW
    simp only [TransformerNet.call, tensorMap_shape, relu_shape, batchNorm_shape,
      convLayer_shape, conv2dTranspose_shape, residualBlock_shape]
    rcases t with ⟨⟨B, H, W, C⟩, dt⟩
    simp only at hm hn hC ⊢
    subst hC hm hn
    simp only [Shape.mk.injEq, convOut, true_and, and_true]
    omega
  · intro b i j c
    exact tanh_scale_range _

/-- Witness for C1: the concrete all-gray 1×4×4×3 image satisfies the
hypotheses, and the forward pass preserves its shape with outputs in [0,255]. -/
theorem transformer_call_shape_and_range_witness :
    (4 ∣ grayTensor.shape.H) ∧ (4 ∣ grayTensor.shape.W) ∧ grayTensor.shape.C = 3 ∧
      ((TransformerNet.call zeroTNParams none grayTensor).shape = grayTensor.shape ∧
        ∀ b i j c, 0 ≤ (TransformerNet.call zeroTNParams none grayTensor).data b i j c ∧
          (TransformerNet.call zeroTNParams none grayTensor).data b i j c ≤ 255) :=
  ⟨⟨1, rfl⟩, ⟨1, rfl⟩, rfl,
    transformer_call_shape_and_range zeroTNParams none grayTensor ⟨1, rfl⟩ ⟨1, rfl⟩ rfl
      (fun _ _ _ _ => ⟨by norm_num [grayTensor], by norm_num [grayTensor]⟩)⟩

/-- C2: the forward pass applies, in this exact order: divide by 255; three
ConvLayer+normalize+ReLU stages with channels 32, 64, 128, strides 1, 2, 2 and
kernels 9×9, 3×3, 3×3; five residual blocks at 128 channels with stride 1; two
transposed-convolution stages (stride 2, same padding, no bias) with channels
64 then 32, each followed by normalization and ReLU; a final 9×9 stride-1
ConvLayer to 3 channels; then `tanh(x) * 127.5 + 127.5`. -/
theorem transformer_call_stage_order (p : TransformerNetParams) (training : Option Bool)
    (inputs : Tensor) :
    TransformerNet.call p training inputs = specForward p training inputs := rfl

/-- Casting the padded valid-convolution output size to the integers gives the
standard convolution arithmetic with floor division. -/
theorem convOut_pad_cast (n k s : ℕ) (hs : 1 ≤ s) :
    ((convOut (n + 2 * (k / 2)) k s : ℕ) : ℤ) =
      ((n : ℤ) + 2 * ((k : ℤ) / 2) - k) / s + 1 := by
  unfold convOut
  have hcast : ((n + 2 * (k / 2) + s - k : ℕ) : ℤ) =
      (n : ℤ) + 2 * ((k : ℤ) / 2) - k + s := by omega
  have hs' : (s : ℤ) ≠ 0 := by omega
  rw [Int.natCast_div, hcast]
  calc ((n : ℤ) + 2 * ((k : ℤ) / 2) - k + s) / s
      = ((n : ℤ) + 2 * ((k : ℤ) / 2) - k + 1 * s) / s := by ring_nf
    _ = ((n : ℤ) + 2 * ((k : ℤ) / 2) - k) / s + 1 := Int.add_mul_ediv_right _ 1 hs'

/-- C3: `ConvLayer` zero-pads each spatial side by `k // 2`, then applies one
2D convolution with stride `s` and no further padding — no activation and no
normalization — so the output spatial sizes follow
`floor((H + 2*(k//2) - k)/s) + 1` and likewise for `W`. -/
theorem convLayer_pad_conv_shape (channels k s : ℕ) (p : ConvParams) (t : Tensor)
    (hs : 1 ≤ s) :
    ConvLayer.call channels k s p t = conv2d channels k s p (zeroPad2D (k / 2) t) ∧
      (((ConvLayer.call channels k s p t).shape.H : ℤ) =
        ((t.shape.H : ℤ) + 2 * ((k : ℤ) / 2) - k) / s + 1) ∧
      (((ConvLayer.call channels k s p t).shape.W : ℤ) =
        ((t.shape.W : ℤ) + 2 * ((k : ℤ) / 2) - k) / s + 1) := by
  refine ⟨rfl, ?_, ?_⟩
  · rw [convLayer_shape]
    exact convOut_pad_cast t.shape.H k s hs
  · rw [convLayer_shape]
    exact convOut_pad_cast t.shape.W k s hs

/-- Witness for C3: a 3×3 stride-2 ConvLayer on a concrete 1×5×7×2 tensor. -/
theorem convLayer_pad_conv_shape_witness :
    1 ≤ 2 ∧
      (ConvLayer.call 4 3 2 zeroConvParams onesTensor =
          conv2d 4 3 2 zeroConvParams (zeroPad2D (3 / 2) onesTensor) ∧
        (((ConvLayer.call 4 3 2 zeroConvParams onesTensor).shape.H : ℤ) =
          ((onesTensor.shape.H : ℤ) + 2 * ((3 : ℤ) / 2) - 3) / 2 + 1) ∧
        (((ConvLayer.call 4 3 2 zeroConvParams onesTensor).shape.W : ℤ) =
          ((onesTensor.shape.W : ℤ) + 2 * ((3 : ℤ) / 2) - 3) / 2 + 1)) :=
  ⟨by norm_num, convLayer_pad_conv_shape 4 3 2 zeroConvParams onesTensor (by norm_num)⟩

/-- C4: for every input whose channel count equals the block's channels and
whose shape is preserved by both internal convolutions, `ResidualBlock.call`
returns the normalize→ReLU→convolve→normalize→ReLU→convolve path applied to
the input, plus the unmodified input, elementwise. -/
theorem residualBlock_skip_connection (channels strides : ℕ) (p : ResidualBlockParams)
    (training : Option Bool) (x : Tensor) (_hC : x.shape.C = channels)
    (_hshape : (convPath channels strides p training x).shape = x.shape) :
    ResidualBlock.call channels strides p training x =
      tensorAdd (convPath channels strides p training x) x ∧
      ∀ b i j c, (ResidualBlock.call channels strides p training x).data b i j c =
        (convPath channels strides p training x).data b i j c + x.data b i j c :=
  ⟨rfl, fun _ _ _ _ => rfl⟩

/-- Witness for C4: a 2-channel residual block with zero parameters on a
concrete 1×5×7×2 tensor. -/
theorem residualBlock_skip_connection_witness :
    onesTensor.shape.C = 2 ∧
      (convPath 2 1 zeroResParams none onesTensor).shape = onesTensor.shape ∧
      ResidualBlock.call 2 1 zeroResParams none onesTensor =
        tensorAdd (convPath 2 1 zeroResParams none onesTensor) onesTensor :=
  ⟨rfl, rfl,
    (residualBlock_skip_connection 2 1 zeroResParams none onesTensor rfl rfl).1⟩

/-- C5: `gram_matrix` maps a (batch, height, width, channels) tensor to a
(batch, channels, channels) tensor whose entry (b,c,d) is the sum over all
spatial positions of `input[b,i,j,c] * input[b,i,j,d]`, divided by
`height * width`. -/
theorem gram_matrix_spec (t : Tensor) :
    (gram_matrix t).d0 = t.shape.B ∧ (gram_matrix t).d1 = t.shape.C ∧
      (gram_matrix t).d2 = t.shape.C ∧
      ∀ b c d, (gram_matrix t).data b c d =
        (∑ i ∈ Finset.range t.shape.H, ∑ j ∈ Finset.range t.shape.W,
          t.data b i j c * t.data b i j d) / ((t.shape.H : ℝ) * (t.shape.W : ℝ)) := by
  refine ⟨rfl, rfl, rfl, fun b c d => ?_⟩
  unfold gram_matrix einsumBijcBijd numLocations
  push_cast
  rfl

/-- C6: `gram_matrix` is symmetric in its two channel indices. -/
theorem gram_matrix_symm (t : Tensor) (b c d : ℕ) :
    (gram_matrix t).data b c d = (gram_matrix t).data b d c := by
  unfold gram_matrix einsumBijcBijd
  simp only
  congr 1
  exact Finset.sum_congr rfl fun i _ =>
    Finset.sum_congr rfl fun j _ => mul_comm _ _

/-- C10: `gram_matrix` divides by `height * width` without a guard; with at
least one row and one column the divisor is nonzero and the result is the
normalized Gram matrix, while a zero spatial extent gives a zero divisor. -/
theorem gram_matrix_unguarded_division (t : Tensor) :
    (∀ b c d, (gram_matrix t).data b c d = einsumBijcBijd t b c d / numLocations t) ∧
      (1 ≤ t.shape.H → 1 ≤ t.shape.W →
        numLocations t ≠ 0 ∧
          ∀ b c d, (gram_matrix t).data b c d * numLocations t = einsumBijcBijd t b c d) ∧
      ((t.shape.H = 0 ∨ t.shape.W = 0) → numLocations t = 0) := by
  refine ⟨fun b c d => rfl, fun hH hW => ?_, fun h0 => ?_⟩
  · have hne : numLocations t ≠ 0 := by
      unfold numLocations
      exact_mod_cast Nat.mul_ne_zero (by omega) (by omega)
    exact ⟨hne, fun b c d => div_mul_cancel₀ _ hne⟩
  · unfold numLocations
    rcases h0 with h | h <;> simp [h]

/-- Witness for C10: the 1×5×7×2 ones tensor has nonzero spatial extent, so
the divisor is nonzero and the Gram matrix is the normalized einsum. -/
theorem gram_matrix_unguarded_division_witness :
    numLocations onesTensor ≠ 0 ∧
      ∀ b c d, (gram_matrix onesTensor).data b c d * numLocations onesTensor =
        einsumBijcBijd onesTensor b c d :=
  (gram_matrix_unguarded_division onesTensor).2.1 (by decide) (by decide)

/-- A layer lookup fails exactly when the requested name is absent from the
backbone's layer-name list. -/
theorem getLayer_eq_none_iff {α : Type} [DecidableEq α] (vgg : Backbone α) (name : α) :
    getLayer vgg name = none ↔ name ∉ vgg.map Prod.fst := by
  induction vgg with
  | nil => simp [getLayer]
  | cons hd tl ih =>
    obtain ⟨n, f⟩ := hd
    by_cases h : name = n <;> simp [getLayer, h, ih]

/-- A failure-propagating traversal fails exactly when some element fails. -/
theorem mapOption_eq_none_iff {α β : Type} (f : α → Option β) (l : List α) :
    mapOption f l = none ↔ ∃ a ∈ l, f a = none := by
  induction l with
  | nil => simp [mapOption]
  | cons a as ih =>
    rw [mapOption]
    cases hfa : f a <;> cases hrec : mapOption f as <;> simp_all

/-- A successful failure-propagating traversal keeps the list length. -/
theorem mapOption_length {α β : Type} (f : α → Option β) (l : List α) (fs : List β)
    (h : mapOption f l = some fs) : fs.length = l.length := by
  induction l generalizing fs with
  | nil =>
    rw [mapOption] at h
    cases h
    rfl
  | cons a as ih =>
    rw [mapOption] at h
    cases hfa : f a with
    | none => rw [hfa] at h; cases h
    | some b =>
      rw [hfa] at h
      cases hrec : mapOption f as with
      | none => rw [hrec] at h; cases h
      | some bs =>
        rw [hrec] at h
        cases h
        simp [ih bs hrec]

/-- C8: requesting a backbone layer name that is not in the backbone's layer
set makes `vgg_layers` — and hence the `StyleContentModel` constructor — fail,
and the failure is decided at construction time (the constructed forward
function exists only when every name resolves). -/
theorem vgg_layers_missing_name_fails {α : Type} [DecidableEq α] (vgg : Backbone α)
    (layer_names style_layers content_layers : List α) :
    (vgg_layers vgg layer_names = none ↔ ∃ n ∈ layer_names, n ∉ vgg.map Prod.fst) ∧
      (StyleContentModel.init vgg style_layers content_layers = none ↔
        ∃ n ∈ style_layers ++ content_layers, n ∉ vgg.map Prod.fst) := by
  have key : ∀ names : List α,
      (vgg_layers vgg names = none ↔ ∃ n ∈ names, n ∉ vgg.map Prod.fst) := by
    intro names
    unfold vgg_layers
    rw [Option.map_eq_none']
    rw [mapOption_eq_none_iff]
    constructor
    · rintro ⟨a, ha, hnone⟩
      exact ⟨a, ha, (getLayer_eq_none_iff vgg a).mp hnone⟩
    · rintro ⟨a, ha, habs⟩
      exact ⟨a, ha, (getLayer_eq_none_iff vgg a).mpr habs⟩
  refine ⟨key layer_names, ?_⟩
  unfold StyleContentModel.init
  rw [Option.map_eq_none']
  exact key (style_layers ++ content_layers)

/-- C7: `StyleContentModel.call` rescales by 255, preprocesses, runs the
backbone once, splits the ordered outputs positionally at the number of style
layers, applies `gram_matrix` to the style outputs only, and returns
dictionaries keyed exactly by the configured style and content layer names,
regardless of input content. -/
theorem styleContentModel_call_spec {α : Type} [DecidableEq α] (vgg : Backbone α)
    (style_layers content_layers : List α) (m : StyleContentModel α)
    (preprocess : Tensor → Tensor) (inputs : Tensor)
    (hm : StyleContentModel.init vgg style_layers content_layers = some m) :
    (m.call preprocess inputs).style.map Prod.fst = style_layers ∧
      (m.call preprocess inputs).content.map Prod.fst = content_layers ∧
      (m.call preprocess inputs).style =
        style_layers.zip
          (((m.vggModel (preprocess (tensorMap (fun v => v * 255) inputs))).take
            style_layers.length).map gram_matrix) ∧
      (m.call preprocess inputs).content =
        content_layers.zip
          ((m.vggModel (preprocess (tensorMap (fun v => v * 255) inputs))).drop
            style_layers.length) := by
  unfold StyleContentModel.init at hm
  rw [Option.map_eq_some'] at hm
  obtain ⟨fmodel, hv, hmval⟩ := hm
  unfold vgg_layers at hv
  rw [Option.map_eq_some'] at hv
  obtain ⟨fs, hfs, hfval⟩ := hv
  have hlen : fs.length = style_layers.length + content_layers.length := by
    have := mapOption_length _ _ _ hfs
    simpa using this
  have hfx : ∀ x, fmodel x = fs.map fun f => f x := by
    rw [← hfval]
    intro x
    rfl
  subst hmval
  refine ⟨?_, ?_, rfl, rfl⟩
  · refine List.map_fst_zip _ _ ?_
    simp only [List.length_map, List.length_take, hfx, hlen]
    omega
  · refine List.map_fst_zip _ _ ?_
    simp only [List.length_drop, hfx, List.length_map, hlen]
    omega

/-- Constructing the example model from the example backbone succeeds. -/
theorem scmInit_eq : StyleContentModel.init exampleBackbone [0] [1] = some scmExample := rfl

/-- Witness for C7: on the concrete two-layer backbone, the returned
dictionaries are keyed exactly by the configured names. -/
theorem styleContentModel_call_spec_witness :
    (StyleContentModel.call (fun t => t) scmExample grayTensor).style.map Prod.fst = [0] ∧
      (StyleContentModel.call (fun t => t) scmExample grayTensor).content.map Prod.fst = [1] :=
  ⟨(styleContentModel_call_spec exampleBackbone [0] [1] scmExample (fun t => t)
      grayTensor scmInit_eq).1,
    (styleContentModel_call_spec exampleBackbone [0] [1] scmExample (fun t => t)
      grayTensor scmInit_eq).2.1⟩

/-- The instrumented batch normalization computes the batch normalization and
records the one training value it received. -/
theorem batchNormTrace_eq (p : BNParams) (training : Option Bool) (t : Tensor) :
    batchNormTrace p training t = (batchNorm p training t, [training]) := rfl

/-- The instrumented residual block computes the residual block forward pass
and records the training value received by each of its two normalizations. -/
theorem residualBlock_callTrace_eq (channels strides : ℕ) (p : ResidualBlockParams)
    (training : Option Bool) (x : Tensor) :
    ResidualBlock.callTrace channels strides p training x =
      (ResidualBlock.call channels strides p training x, [training, training]) := rfl

set_option maxRecDepth 4000 in
/-- C9: a forward pass with a given training value hands exactly that value to
each of the fifteen normalization layers it invokes: `in1`–`in5` and the two
batch normalizations of each of the five residual blocks (which the framework
reaches through training-argument propagation to nested calls). -/
theorem transformer_training_flag_threading (p : TransformerNetParams)
    (training : Option Bool) (inputs : Tensor) :
    TransformerNet.callTrace p training inputs =
      (TransformerNet.call p training inputs, List.replicate 15 training) := by
  unfold TransformerNet.callTrace TransformerNet.call
  simp only [residualBlock_callTrace_eq, batchNormTrace_eq]
  rfl

end FastStyleTransfer
